import Mathlib

/-!
Verification of the water-shader repository: a shallow embedding of the
raymarched seascape fragment shader (`shaders/fragment.glsl`), the `Ocean`
controller (`ocean.js`), the `SceneSetup` water/sky controller, and the
`main.js` bootstrap, together with theorems settling the specification
claims about them.

GLSL floating-point arithmetic is modelled over the real numbers; JS
numbers are likewise modelled as reals.  Shader-source string patching is
modelled over Lean strings with a first-occurrence replacement mirroring
the JavaScript `String.replace(string, string)` semantics.
-/

set_option maxRecDepth 8000

namespace WaterShader

noncomputable section

/-! ## GLSL vector and scalar builtins -/

/-- A GLSL `vec3` of floats, modelled over the reals. -/
structure Vec3R where
  x : ℝ
  y : ℝ
  z : ℝ

/-- GLSL `mix(a, b, t) = a * (1 - t) + b * t`. -/
def glslMix (a b t : ℝ) : ℝ := a * (1 - t) + b * t

/-- GLSL `floor`. -/
def glslFloor (x : ℝ) : ℝ := (Int.floor x : ℝ)

/-- GLSL `fract(x) = x - floor(x)`. -/
def glslFract (x : ℝ) : ℝ := x - glslFloor x

/-! ## Constants of `shaders/fragment.glsl` -/

/-- `const int NUM_STEPS = 8;` — raymarching bisection steps. -/
def NUM_STEPS : Nat := 8

/-- `const int ITER_GEOMETRY = 3;` — wave octaves in the geometry pass. -/
def ITER_GEOMETRY : Nat := 3

/-- `const float SEA_HEIGHT = 0.6;` -/
def SEA_HEIGHT : ℝ := 0.6

/-- `const float SEA_CHOPPY = 4.0;` -/
def SEA_CHOPPY : ℝ := 4.0

/-- `const float SEA_SPEED = 0.8;` -/
def SEA_SPEED : ℝ := 0.8

/-- `const float SEA_FREQ = 0.16;` -/
def SEA_FREQ : ℝ := 0.16

/-- `#define SEA_TIME (uTime * SEA_SPEED)` -/
def SEA_TIME (uTime : ℝ) : ℝ := uTime * SEA_SPEED

/-- Multiplication of a row `vec2` by `const mat2 octave_m = mat2(1.6, 1.2, -1.2, 1.6)`
(GLSL `uv *= octave_m`; columns of the matrix are `(1.6, 1.2)` and `(-1.2, 1.6)`). -/
def mulOctaveM (uv : ℝ × ℝ) : ℝ × ℝ :=
  (1.6 * uv.1 + 1.2 * uv.2, -1.2 * uv.1 + 1.6 * uv.2)

/-! ## Procedural noise (`hash`, `noise`, `sea_octave`, `map`) -/

/-- `float hash(vec2 p)` from the fragment shader:
`fract(sin(dot(p, vec2(127.1, 311.7))) * 43758.5453123)`. -/
def hash (p : ℝ × ℝ) : ℝ :=
  glslFract (Real.sin (p.1 * 127.1 + p.2 * 311.7) * 43758.5453123)

/-- `float noise(in vec2 p)` from the fragment shader (value noise with a
smoothstep-shaped interpolant, remapped to `[-1, 1]`). -/
def noise (p : ℝ × ℝ) : ℝ :=
  let i := (glslFloor p.1, glslFloor p.2)
  let f := (glslFract p.1, glslFract p.2)
  let u := (f.1 * f.1 * (3 - 2 * f.1), f.2 * f.2 * (3 - 2 * f.2));
  -1 + 2 * glslMix
    (glslMix (hash (i.1 + 0, i.2 + 0)) (hash (i.1 + 1, i.2 + 0)) u.1)
    (glslMix (hash (i.1 + 0, i.2 + 1)) (hash (i.1 + 1, i.2 + 1)) u.1)
    u.2

/-- `float sea_octave(vec2 uv, float choppy)` from the fragment shader. -/
def sea_octave (uv : ℝ × ℝ) (choppy : ℝ) : ℝ :=
  let uv1 := (uv.1 + noise uv, uv.2 + noise uv)
  let wv := (1 - |Real.sin uv1.1|, 1 - |Real.sin uv1.2|)
  let swv := (|Real.cos uv1.1|, |Real.cos uv1.2|)
  let wv2 := (glslMix wv.1 swv.1 wv.1, glslMix wv.2 swv.2 wv.2)
  (1 - (wv2.1 * wv2.2) ^ (0.65 : ℝ)) ^ choppy

/-- The accumulation loop of `float map(vec3 p)`: each iteration adds two
`sea_octave` samples scaled by `amp` into `h`, then updates
`uv *= octave_m; freq *= 1.9; amp *= 0.22; choppy = mix(choppy, 1.0, 0.2)`. -/
def mapLoop (t : ℝ) : Nat → (ℝ × ℝ) → ℝ → ℝ → ℝ → ℝ → ℝ
  | 0, _, _, _, _, h => h
  | Nat.succ n, uv, freq, amp, choppy, h =>
      mapLoop t n (mulOctaveM uv) (freq * 1.9) (amp * 0.22) (glslMix choppy 1 0.2)
        (h + (sea_octave ((uv.1 + SEA_TIME t) * freq, (uv.2 + SEA_TIME t) * freq) choppy +
              sea_octave ((uv.1 - SEA_TIME t) * freq, (uv.2 - SEA_TIME t) * freq) choppy) * amp)

/-- `float map(vec3 p)` from the fragment shader: the low-detail ocean height
field used by the raymarcher; `uv = p.xz; uv.x *= 0.75`, then `ITER_GEOMETRY`
octaves are accumulated and the result is `p.y - h`.  The uniform `uTime`
is passed explicitly as `t`. -/
def map (t : ℝ) (p : Vec3R) : ℝ :=
  p.y - mapLoop t ITER_GEOMETRY (p.x * 0.75, p.z) SEA_FREQ SEA_HEIGHT SEA_CHOPPY 0

/-! ## `heightMapTracing` -/

/-- The point `ori + dir * t` on a ray. -/
def rayAt (ori dir : Vec3R) (t : ℝ) : Vec3R :=
  ⟨ori.x + dir.x * t, ori.y + dir.y * t, ori.z + dir.z * t⟩

/-- The mutable locals of `heightMapTracing`'s loop, together with the `out`
parameter `p` (`none` while it has never been assigned). -/
structure HMTState where
  tm : ℝ
  tx : ℝ
  hm : ℝ
  hx : ℝ
  tmid : ℝ
  p : Option Vec3R

/-- One iteration of the `heightMapTracing` loop body:
`tmid = mix(tm, tx, hm / (hm - hx)); p = ori + dir * tmid; float hmid = map(p);`
then the bracket `[tm, tx]` is narrowed on the side determined by the sign of
`hmid`. -/
def hmtStep (m : Vec3R → ℝ) (ori dir : Vec3R) (s : HMTState) : HMTState :=
  let tmid := glslMix s.tm s.tx (s.hm / (s.hm - s.hx))
  let p := rayAt ori dir tmid
  let hmid := m p
  if hmid < 0 then
    { tm := s.tm, tx := tmid, hm := s.hm, hx := hmid, tmid := tmid, p := some p }
  else
    { tm := tmid, tx := s.tx, hm := hmid, hx := s.hx, tmid := tmid, p := some p }

/-- `n` iterations of the `heightMapTracing` loop. -/
def hmtIter (m : Vec3R → ℝ) (ori dir : Vec3R) : Nat → HMTState → HMTState
  | 0, s => s
  | Nat.succ n, s => hmtIter m ori dir n (hmtStep m ori dir s)

/-- The state of the locals when the loop of `heightMapTracing` is entered:
`tm = 0, tx = 1000, hm = map(ori + dir * tm), hx = map(ori + dir * tx),
tmid = 0`, and the `out` parameter `p` not yet assigned. -/
def hmtInit (m : Vec3R → ℝ) (ori dir : Vec3R) : HMTState :=
  { tm := 0, tx := 1000, hm := m (rayAt ori dir 0), hx := m (rayAt ori dir 1000),
    tmid := 0, p := none }

/-- `float heightMapTracing(vec3 ori, vec3 dir, out vec3 p)` from the fragment
shader, parametric in the height function `m` it samples (the shader calls the
fixed `map`).  Returns the returned distance together with the final value of
the `out` parameter `p` (`none` when the function returns without assigning
it).  If `map(ori + dir * 1000) > 0` it returns `tx = 1000` before the loop;
otherwise it runs `NUM_STEPS` iterations and returns the final `tmid`. -/
def heightMapTracing (m : Vec3R → ℝ) (ori dir : Vec3R) : ℝ × Option Vec3R :=
  let hx := m (rayAt ori dir 1000)
  if hx > 0 then (1000, none)
  else
    let s := hmtIter m ori dir NUM_STEPS (hmtInit m ori dir)
    (s.tmid, s.p)

/-- The invariant of the `heightMapTracing` loop when the initial bracket is
valid: the bracket stays inside `[0, 1000]`, `hm` and `hx` cache the height
at `tm` and `tx`, the surface is above the ray at `tm` and below it at `tx`,
and the last probe `tmid` stays in `[0, 1000]`. -/
def hmtInv (m : Vec3R → ℝ) (ori dir : Vec3R) (s : HMTState) : Prop :=
  0 ≤ s.tm ∧ s.tm ≤ s.tx ∧ s.tx ≤ 1000 ∧ 0 ≤ s.tmid ∧ s.tmid ≤ 1000 ∧
    s.hm = m (rayAt ori dir s.tm) ∧ s.hx = m (rayAt ori dir s.tx) ∧
    0 ≤ s.hm ∧ s.hx < 0

/-- Geometric partial sum bounding the height accumulated by `mapLoop`:
each iteration contributes at most `2 * amp` and `amp` shrinks by `0.22`. -/
def ampSum : Nat → ℝ → ℝ
  | 0, _ => 0
  | Nat.succ n, amp => 2 * amp + ampSum n (amp * 0.22)

/-- The wave height accumulated by `map` at time `0` over the plane point
`(0, 0)` (every point probed along a vertical ray through the origin of the
horizontal plane has these `x`, `z` coordinates). -/
def H0 : ℝ := mapLoop 0 ITER_GEOMETRY (0, 0) SEA_FREQ SEA_HEIGHT SEA_CHOPPY 0

/-! ## three.js vector helpers used by `SceneSetup.updateSunPosition` -/

/-- `THREE.MathUtils.degToRad(deg) = deg * (PI / 180)`. -/
def degToRad (deg : ℝ) : ℝ := deg * (Real.pi / 180)

/-- `THREE.Vector3.setFromSphericalCoords(radius, phi, theta)`:
`sinPhiRadius = sin(phi) * radius; x = sinPhiRadius * sin(theta);
y = cos(phi) * radius; z = sinPhiRadius * cos(theta)`. -/
def setFromSphericalCoords (radius phi theta : ℝ) : Vec3R :=
  ⟨Real.sin phi * radius * Real.sin theta,
   Real.cos phi * radius,
   Real.sin phi * radius * Real.cos theta⟩

/-- Euclidean length of a `THREE.Vector3`. -/
def vLength (v : Vec3R) : ℝ := Real.sqrt (v.x * v.x + v.y * v.y + v.z * v.z)

/-- `THREE.Vector3.normalize()`: divide by `length() || 1` (a zero length is
replaced by `1`). -/
def vNormalize (v : Vec3R) : Vec3R :=
  let l := vLength v
  let d := if l = 0 then 1 else l
  ⟨v.x / d, v.y / d, v.z / d⟩

/-- The three sun-direction values written by `SceneSetup.updateSunPosition`:
the controller's own `this.sun`, the sky material's `sunPosition` uniform, and
the water material's `sunDirection` uniform. -/
structure SunVectors where
  sun : Vec3R
  skySunPosition : Vec3R
  waterSunDirection : Vec3R

/-- `SceneSetup.updateSunPosition(elevation, azimuth)`:
`phi = degToRad(90 - elevation); theta = degToRad(azimuth);
sun.setFromSphericalCoords(1, phi, theta)`, then the sky's `sunPosition`
uniform copies `sun` and the water's `sunDirection` uniform copies `sun`
and normalizes it. -/
def updateSunPosition (elevation azimuth : ℝ) : SunVectors :=
  let phi := degToRad (90 - elevation)
  let theta := degToRad azimuth
  let sun := setFromSphericalCoords 1 phi theta
  { sun := sun, skySunPosition := sun, waterSunDirection := vNormalize sun }

/-! ## String patching (`onBeforeCompile` of the water material)

JavaScript `String.replace(searchString, replacement)` replaces only the
first occurrence of `searchString`; `splitFirstAux` locates that first
occurrence. -/

/-- Worker for `splitFirstAux`: scans `s` left to right, keeping the already
scanned characters in `acc` (reversed). -/
def splitFirstLoop (pat : List Char) : List Char → List Char → Option (List Char × List Char)
  | acc, [] => if pat = [] then some (acc.reverse, []) else none
  | acc, c :: rest =>
      if pat.isPrefixOf (c :: rest) then some (acc.reverse, (c :: rest).drop pat.length)
      else splitFirstLoop pat (c :: acc) rest

/-- Split a character list at the first occurrence of `pat`: returns the part
before the occurrence and the part after it, or `none` when `pat` does not
occur. -/
def splitFirstAux (pat s : List Char) : Option (List Char × List Char) :=
  splitFirstLoop pat [] s

/-- JavaScript `s.replace(pat, rep)` with a plain-string pattern: replace the
first occurrence of `pat` in `s` by `rep`; return `s` unchanged when `pat`
does not occur. -/
def replaceFirst (s pat rep : String) : String :=
  match splitFirstAux pat.data s.data with
  | some (a, b) => ⟨a ++ rep.data ++ b⟩
  | none => s

/-- The template literal prepended to the water vertex shader by
`onBeforeCompile`: the `uTime` uniform, the `vElevation` varying and the
`gerstnerWave` function definition. -/
def gerstnerWaveHeader : String :=
  "\n                uniform float uTime;\n                varying float vElevation;\n\n                // Gerstner wave implementation\n                // Produces steep, directional ocean waves\n                vec3 gerstnerWave(vec2 coord, vec2 direction, float steepness, float wavelength, float speed) \x7b\n                    float k = 2.0 * 3.14159 / wavelength;\n                    float c = sqrt(9.8 / k);\n                    vec2 d = normalize(direction);\n                    float f = k * (dot(d, coord) - speed * uTime);\n                    float a = steepness / k;\n                    \n                    return vec3(\n                        d.x * (a * cos(f)),\n                        a * sin(f),\n                        d.y * (a * cos(f))\n                    );\n                \x7d\n            "

/-- The search pattern of the `replace` call in `onBeforeCompile`. -/
def beginVertexInclude : String := "#include <begin_vertex>"

/-- The replacement template literal of the `replace` call in
`onBeforeCompile`: it keeps the original `#include <begin_vertex>` chunk and
then adds the four Gerstner wave displacements (vertical component scaled by
`5.0`) plus the two sinusoidal swell terms to `transformed`. -/
def waveDisplacementInjection : String :=
  "\n                #include <begin_vertex>\n\n                // Multiple Gerstner waves with different directions and scales\n                // Creates complex, chaotic ocean motion\n                vec3 wave1 = gerstnerWave(position.xy, vec2(1.0, 0.1), 0.9, 300.0, 15.0);\n                vec3 wave2 = gerstnerWave(position.xy, vec2(0.7, 1.0), 0.8, 150.0, 20.0);\n                vec3 wave3 = gerstnerWave(position.xy, vec2(-0.2, -0.4), 0.8, 80.0, 25.0);\n                vec3 wave4 = gerstnerWave(position.xy, vec2(0.5, -0.6), 0.7, 40.0, 35.0);\n\n                // Combine all wave displacements\n                vec3 totalDisplacement = wave1 + wave2 + wave3 + wave4;\n\n                // Amplify vertical motion for dramatic wave height\n                totalDisplacement.y *= 5.0;\n\n                // Add very large, slow-moving ocean swells\n                float giantSwell = sin(position.x * 0.003 + uTime * 3.0) * 50.0;\n                float secondarySwell = cos(position.y * 0.003 + uTime * 2.5) * 40.0;\n                totalDisplacement.y += giantSwell + secondarySwell;\n\n                // Apply final displacement to vertex\n                transformed += totalDisplacement;\n\n                // Pass elevation value for potential shading use\n                vElevation = transformed.z;\n                "

/-- The parts of the compiled-shader object touched by `onBeforeCompile`:
the value of the `uTime` uniform (absent before the hook adds it) and the
vertex shader source text. -/
structure ShaderObj where
  uniformsUTime : Option ℝ
  vertexShader : String

/-- The `onBeforeCompile` hook installed on the water material: it adds the
uniform `uTime = { value: 0 }`, prepends `gerstnerWaveHeader` to the vertex
shader source, and replaces the first occurrence of
`#include <begin_vertex>` by `waveDisplacementInjection`. -/
def onBeforeCompile (sh : ShaderObj) : ShaderObj :=
  { uniformsUTime := some 0,
    vertexShader :=
      replaceFirst (gerstnerWaveHeader ++ sh.vertexShader)
        beginVertexInclude waveDisplacementInjection }

/-! ## `SceneSetup` per-frame update state -/

/-- The injected shader stored in `water.material.userData.shader` by
`onBeforeCompile` (only its `uTime` uniform value is relevant to `update`). -/
structure InjectedShaderState where
  uTime : ℝ

/-- The parts of the library water material touched by `SceneSetup.update`:
the built-in `time` uniform and the stored injected shader. -/
structure WaterMaterialState where
  time : ℝ
  userDataShader : Option InjectedShaderState

/-- The `SceneSetup` controller state relevant to `update`: `this.water`
(`none` before `init` has run). -/
structure SceneSetupState where
  water : Option WaterMaterialState

/-- `SceneSetup.update()`: guarded by `if (this.water)`, adds `1.0 / 60.0` to
the water material's `time` uniform, and — if `userData.shader` exists — adds
`1.0 / 60.0` to the injected shader's `uTime` uniform.  It takes no
elapsed-time argument. -/
def SceneSetup.update (s : SceneSetupState) : SceneSetupState :=
  match s.water with
  | none => s
  | some w =>
      let w1 : WaterMaterialState := { w with time := w.time + 1 / 60 }
      let w2 : WaterMaterialState :=
        match w1.userDataShader with
        | none => w1
        | some sh => { w1 with userDataShader := some { sh with uTime := sh.uTime + 1 / 60 } }
      { water := some w2 }

/-! ## `Ocean` controller and the `main.js` bootstrap -/

/-- The two uniforms of the raymarching shader material. -/
structure OceanUniforms where
  uTime : ℝ
  uResolution : ℝ × ℝ

/-- The `THREE.ShaderMaterial` created by `Ocean.init`. -/
structure OceanMaterialState where
  uniforms : OceanUniforms
  depthWrite : Bool
  depthTest : Bool

/-- The full-screen quad mesh created by `Ocean.init`. -/
structure OceanMesh where
  geometryWidth : ℝ
  geometryHeight : ℝ
  material : OceanMaterialState
  frustumCulled : Bool

/-- The `Ocean` controller's own fields (`this.material`, `this.mesh`),
`none` before `init` assigns them. -/
structure OceanState where
  material : Option OceanMaterialState
  mesh : Option OceanMesh

/-- `Ocean.init()`: creates a `PlaneGeometry(2, 2)`, a shader material with
uniforms `uTime = 0` and `uResolution = (window.innerWidth,
window.innerHeight)` and depth write/test disabled, wraps them in a mesh with
`frustumCulled = false`, and adds that mesh to the scene.  The window inner
dimensions are passed as `w`, `h` and the scene as the list of meshes added
to it. -/
def Ocean.init (w h : ℝ) (scene : List OceanMesh) : OceanState × List OceanMesh :=
  let material : OceanMaterialState :=
    { uniforms := { uTime := 0, uResolution := (w, h) },
      depthWrite := false, depthTest := false }
  let mesh : OceanMesh :=
    { geometryWidth := 2, geometryHeight := 2, material := material,
      frustumCulled := false }
  ({ material := some material, mesh := some mesh }, scene ++ [mesh])

/-- `Ocean.update(time)`: guarded by `if (this.material)`, sets the `uTime`
uniform to `time`. -/
def Ocean.update (o : OceanState) (time : ℝ) : OceanState :=
  match o.material with
  | none => o
  | some m =>
      { o with material := some { m with uniforms := { m.uniforms with uTime := time } } }

/-- `Ocean.resize()`: guarded by `if (this.material)`, sets the `uResolution`
uniform to `(window.innerWidth, window.innerHeight)` (passed as `w`, `h`). -/
def Ocean.resize (o : OceanState) (w h : ℝ) : OceanState :=
  match o.material with
  | none => o
  | some m =>
      { o with material := some { m with uniforms := { m.uniforms with uResolution := (w, h) } } }

/-- The camera fields touched by the bootstrap. -/
structure CameraState where
  fov : ℝ
  aspect : ℝ
  near : ℝ
  far : ℝ

/-- What `renderer.render(scene, camera)` observes of the mutable scene on one
frame: the ocean material (with its uniforms) and the test sphere's height. -/
structure FrameSnapshot where
  oceanMaterial : Option OceanMaterialState
  sphereY : ℝ

/-- The mutable state of the `main.js` bootstrap: camera, renderer size, the
`Ocean` controller, the test sphere's height, and the list of frames rendered
so far. -/
structure AppState where
  camera : CameraState
  rendererWidth : ℝ
  rendererHeight : ℝ
  ocean : OceanState
  sphereY : ℝ
  frames : List FrameSnapshot

/-- One run of the `animate` frame callback in `main.js`: it reads
`time = clock.getElapsedTime()` (passed as `elapsed`), calls
`ocean.update(time)`, sets `sphere.position.y = Math.sin(time) * 5`, and only
then calls `renderer.render(scene, camera)` — modelled by appending a
snapshot of the post-update scene to `frames`. -/
def animate (st : AppState) (elapsed : ℝ) : AppState :=
  let time := elapsed
  let ocean1 := Ocean.update st.ocean time
  let sy := Real.sin time * 5
  { st with ocean := ocean1, sphereY := sy,
            frames := st.frames ++ [{ oceanMaterial := ocean1.material, sphereY := sy }] }

/-- The `resize` listener in `main.js`: sets `camera.aspect =
window.innerWidth / window.innerHeight`, updates the projection matrix,
resizes the renderer to the window dimensions, and calls `ocean.resize()`. -/
def onWindowResize (st : AppState) (w h : ℝ) : AppState :=
  { st with camera := { st.camera with aspect := w / h },
            rendererWidth := w, rendererHeight := h,
            ocean := Ocean.resize st.ocean w h }

end

/-! ## Basic bounds on the wave octaves and the height field -/

theorem glslMix_mem {a b t : ℝ} (ha0 : 0 ≤ a) (ha1 : a ≤ 1) (hb0 : 0 ≤ b)
    (hb1 : b ≤ 1) (ht0 : 0 ≤ t) (ht1 : t ≤ 1) :
    0 ≤ glslMix a b t ∧ glslMix a b t ≤ 1 := by
  unfold glslMix
  constructor <;> nlinarith

theorem sea_octave_mem (uv : ℝ × ℝ) {choppy : ℝ} (hc : 0 ≤ choppy) :
    0 ≤ sea_octave uv choppy ∧ sea_octave uv choppy ≤ 1 := by
  unfold sea_octave
  have hs1 : |Real.sin (uv.1 + noise uv)| ≤ 1 :=
    abs_le.2 ⟨Real.neg_one_le_sin _, Real.sin_le_one _⟩
  have hs2 : |Real.sin (uv.2 + noise uv)| ≤ 1 :=
    abs_le.2 ⟨Real.neg_one_le_sin _, Real.sin_le_one _⟩
  have hc1 : |Real.cos (uv.1 + noise uv)| ≤ 1 :=
    abs_le.2 ⟨Real.neg_one_le_cos _, Real.cos_le_one _⟩
  have hc2 : |Real.cos (uv.2 + noise uv)| ≤ 1 :=
    abs_le.2 ⟨Real.neg_one_le_cos _, Real.cos_le_one _⟩
  have habs1 : 0 ≤ |Real.sin (uv.1 + noise uv)| := abs_nonneg _
  have habs2 : 0 ≤ |Real.sin (uv.2 + noise uv)| := abs_nonneg _
  have w1 := glslMix_mem (a := 1 - |Real.sin (uv.1 + noise uv)|)
    (b := |Real.cos (uv.1 + noise uv)|) (t := 1 - |Real.sin (uv.1 + noise uv)|)
    (by linarith) (by linarith) (abs_nonneg _) hc1 (by linarith) (by linarith)
  have w2 := glslMix_mem (a := 1 - |Real.sin (uv.2 + noise uv)|)
    (b := |Real.cos (uv.2 + noise uv)|) (t := 1 - |Real.sin (uv.2 + noise uv)|)
    (by linarith) (by linarith) (abs_nonneg _) hc2 (by linarith) (by linarith)
  set m1 := glslMix (1 - |Real.sin (uv.1 + noise uv)|) (|Real.cos (uv.1 + noise uv)|)
    (1 - |Real.sin (uv.1 + noise uv)|) with hm1
  set m2 := glslMix (1 - |Real.sin (uv.2 + noise uv)|) (|Real.cos (uv.2 + noise uv)|)
    (1 - |Real.sin (uv.2 + noise uv)|) with hm2
  have hprod0 : 0 ≤ m1 * m2 := mul_nonneg w1.1 w2.1
  have hprod1 : m1 * m2 ≤ 1 := by nlinarith [w1.1, w1.2, w2.1, w2.2]
  have hp0 : 0 ≤ (m1 * m2) ^ (0.65 : ℝ) := Real.rpow_nonneg hprod0 _
  have hp1 : (m1 * m2) ^ (0.65 : ℝ) ≤ 1 :=
    Real.rpow_le_one hprod0 hprod1 (by norm_num)
  exact ⟨Real.rpow_nonneg (by linarith) _,
         Real.rpow_le_one (by linarith) (by linarith) hc⟩

theorem mapLoop_bounds (t : ℝ) :
    ∀ (n : Nat) (uv : ℝ × ℝ) (freq amp choppy h : ℝ), 0 ≤ amp → 0 ≤ choppy →
      h ≤ mapLoop t n uv freq amp choppy h ∧
      mapLoop t n uv freq amp choppy h ≤ h + ampSum n amp := by
  intro n
  induction n with
  | zero =>
      intro uv freq amp choppy h _ _
      simp [mapLoop, ampSum]
  | succ n ih =>
      intro uv freq amp choppy h hamp hchop
      have o1 := sea_octave_mem ((uv.1 + SEA_TIME t) * freq, (uv.2 + SEA_TIME t) * freq) hchop
      have o2 := sea_octave_mem ((uv.1 - SEA_TIME t) * freq, (uv.2 - SEA_TIME t) * freq) hchop
      have hamp' : 0 ≤ amp * 0.22 := by positivity
      have hchop' : 0 ≤ glslMix choppy 1 0.2 := by unfold glslMix; nlinarith
      have ihh := ih (mulOctaveM uv) (freq * 1.9) (amp * 0.22) (glslMix choppy 1 0.2)
        (h + (sea_octave ((uv.1 + SEA_TIME t) * freq, (uv.2 + SEA_TIME t) * freq) choppy +
              sea_octave ((uv.1 - SEA_TIME t) * freq, (uv.2 - SEA_TIME t) * freq) choppy) * amp)
        hamp' hchop'
      constructor
      · calc h ≤ h + (sea_octave ((uv.1 + SEA_TIME t) * freq, (uv.2 + SEA_TIME t) * freq) choppy +
              sea_octave ((uv.1 - SEA_TIME t) * freq, (uv.2 - SEA_TIME t) * freq) choppy) * amp := by
              nlinarith [o1.1, o2.1]
          _ ≤ mapLoop t (n + 1) uv freq amp choppy h := by
              rw [mapLoop]; exact ihh.1
      · calc mapLoop t (n + 1) uv freq amp choppy h
            ≤ h + (sea_octave ((uv.1 + SEA_TIME t) * freq, (uv.2 + SEA_TIME t) * freq) choppy +
              sea_octave ((uv.1 - SEA_TIME t) * freq, (uv.2 - SEA_TIME t) * freq) choppy) * amp +
              ampSum n (amp * 0.22) := by rw [mapLoop]; exact ihh.2
          _ ≤ h + ampSum (n + 1) amp := by
              rw [ampSum]; nlinarith [o1.2, o2.2]

/-- The height field never exceeds the ray height: `map t p ≤ p.y`. -/
theorem map_le (t : ℝ) (p : Vec3R) : map t p ≤ p.y := by
  have h := (mapLoop_bounds t ITER_GEOMETRY (p.x * 0.75, p.z) SEA_FREQ SEA_HEIGHT SEA_CHOPPY 0
    (by norm_num [SEA_HEIGHT]) (by norm_num [SEA_CHOPPY])).1
  unfold map
  linarith

/-- Lower bound on the height field: the accumulated wave height is at most
`2 * (0.6 + 0.132 + 0.02904) = 1.52208`. -/
theorem map_ge (t : ℝ) (p : Vec3R) : p.y - 1.52208 ≤ map t p := by
  have h := (mapLoop_bounds t ITER_GEOMETRY (p.x * 0.75, p.z) SEA_FREQ SEA_HEIGHT SEA_CHOPPY 0
    (by norm_num [SEA_HEIGHT]) (by norm_num [SEA_CHOPPY])).2
  have hsum : ampSum ITER_GEOMETRY SEA_HEIGHT = 1.52208 := by
    norm_num [ampSum, ITER_GEOMETRY, SEA_HEIGHT]
  unfold map
  rw [hsum] at h
  linarith

/-! ## The `heightMapTracing` loop invariant -/

theorem hmtStep_inv (m : Vec3R → ℝ) (ori dir : Vec3R) (s : HMTState)
    (hs : hmtInv m ori dir s) :
    hmtInv m ori dir (hmtStep m ori dir s) ∧
      s.tm ≤ (hmtStep m ori dir s).tmid ∧ (hmtStep m ori dir s).tmid ≤ s.tx := by
  obtain ⟨h0, htmtx, htx1000, _, _, hhm, hhx, hhm0, hhx0⟩ := hs
  have hden : 0 < s.hm - s.hx := by linarith
  have hq0 : 0 ≤ s.hm / (s.hm - s.hx) := div_nonneg hhm0 hden.le
  have hq1 : s.hm / (s.hm - s.hx) ≤ 1 := by
    rw [div_le_one hden]; linarith
  have hmixlo : s.tm ≤ glslMix s.tm s.tx (s.hm / (s.hm - s.hx)) := by
    unfold glslMix; nlinarith
  have hmixhi : glslMix s.tm s.tx (s.hm / (s.hm - s.hx)) ≤ s.tx := by
    unfold glslMix; nlinarith
  simp only [hmtStep]
  split_ifs with hc
  · exact ⟨⟨h0, hmixlo, by linarith, by linarith, by linarith, hhm, rfl, hhm0, hc⟩,
      hmixlo, hmixhi⟩
  · push_neg at hc
    exact ⟨⟨by linarith, hmixhi, htx1000, by linarith, by linarith, rfl, hhx, hc, hhx0⟩,
      hmixlo, hmixhi⟩

theorem hmtIter_inv (m : Vec3R → ℝ) (ori dir : Vec3R) :
    ∀ (n : Nat) (s : HMTState),
      hmtInv m ori dir s → hmtInv m ori dir (hmtIter m ori dir n s) := by
  intro n
  induction n with
  | zero => intro s hs; exact hs
  | succ n ih => intro s hs; exact ih _ (hmtStep_inv m ori dir s hs).1

theorem hmtIter_succ_outer (m : Vec3R → ℝ) (ori dir : Vec3R) :
    ∀ (n : Nat) (s : HMTState),
      hmtIter m ori dir (n + 1) s = hmtStep m ori dir (hmtIter m ori dir n s) := by
  intro n
  induction n with
  | zero => intro s; rfl
  | succ n ih =>
      intro s
      have h1 : hmtIter m ori dir (n + 1 + 1) s
          = hmtIter m ori dir (n + 1) (hmtStep m ori dir s) := rfl
      rw [h1, ih]
      rfl

theorem hmtStep_fixed (m : Vec3R → ℝ) (ori dir : Vec3R) (s : HMTState)
    (h : hmtStep m ori dir s = s) : ∀ n, hmtIter m ori dir n s = s := by
  intro n
  induction n with
  | zero => rfl
  | succ n ih =>
      have h1 : hmtIter m ori dir (n + 1) s = hmtIter m ori dir n (hmtStep m ori dir s) := rfl
      rw [h1, h]; exact ih

/-- On a ray along which the height function is the affine map `t ↦ a - t`
with `a < 0` (the surface is below the ray start and stays below it),
`heightMapTracing` returns `a`, a negative distance. -/
theorem hmt_affine (m : Vec3R → ℝ) (ori dir : Vec3R) (a : ℝ) (ha : a < 0)
    (haff : ∀ t : ℝ, m (rayAt ori dir t) = a - t) :
    (heightMapTracing m ori dir).1 = a := by
  have hnot : ¬ m (rayAt ori dir 1000) > 0 := by rw [haff 1000]; linarith
  have hstep_fix :
      hmtStep m ori dir ⟨a, 1000, 0, a - 1000, a, some (rayAt ori dir a)⟩
        = ⟨a, 1000, 0, a - 1000, a, some (rayAt ori dir a)⟩ := by
    simp only [hmtStep]
    rw [zero_div]
    have hg : glslMix a 1000 0 = a := by unfold glslMix; ring
    rw [hg, haff a, sub_self, if_neg (lt_irrefl (0 : ℝ))]
  have hstep0 :
      hmtStep m ori dir (hmtInit m ori dir)
        = ⟨a, 1000, 0, a - 1000, a, some (rayAt ori dir a)⟩ := by
    simp only [hmtInit, hmtStep]
    rw [haff 0, haff 1000, sub_zero]
    have hd : a - (a - 1000) = (1000 : ℝ) := by ring
    rw [hd]
    have hg0 : glslMix 0 1000 (a / 1000) = a := by
      unfold glslMix; field_simp
    rw [hg0, haff a, sub_self, if_neg (lt_irrefl (0 : ℝ))]
  have hiter : hmtIter m ori dir NUM_STEPS (hmtInit m ori dir)
      = ⟨a, 1000, 0, a - 1000, a, some (rayAt ori dir a)⟩ := by
    show hmtIter m ori dir 8 (hmtInit m ori dir) = _
    have h1 : hmtIter m ori dir 8 (hmtInit m ori dir)
        = hmtIter m ori dir 7 (hmtStep m ori dir (hmtInit m ori dir)) := rfl
    rw [h1, hstep0]
    exact hmtStep_fixed m ori dir _ hstep_fix 7
  simp only [heightMapTracing]
  rw [if_neg hnot, hiter]

/-- The height `map 0` sampled along the downward vertical ray from
`(0, -10, 0)` is the affine function `t ↦ (-10 - H0) - t`. -/
theorem map_ray_vertical (t' : ℝ) :
    map 0 (rayAt ⟨0, -10, 0⟩ ⟨0, -1, 0⟩ t') = (-10 - H0) - t' := by
  show (-10 + -1 * t') -
      mapLoop 0 ITER_GEOMETRY ((0 + 0 * t') * 0.75, 0 + 0 * t')
        SEA_FREQ SEA_HEIGHT SEA_CHOPPY 0
    = (-10 - H0) - t'
  have e1 : ((0 : ℝ) + 0 * t') * 0.75 = 0 := by ring
  have e2 : (0 : ℝ) + 0 * t' = 0 := by ring
  rw [e1, e2]
  unfold H0
  ring

theorem H0_nonneg : 0 ≤ H0 :=
  (mapLoop_bounds 0 ITER_GEOMETRY (0, 0) SEA_FREQ SEA_HEIGHT SEA_CHOPPY 0
    (by norm_num [SEA_HEIGHT]) (by norm_num [SEA_CHOPPY])).1

/-! ## Claim C1 -/

/-- C1 counterexample: the claim asserts the returned distance of
`heightMapTracing` always lies in `[0, 1000]`, but for the ray starting at
`(0, -10, 0)` pointing straight down — where `map` is negative at `tm = 0`
as well as at `tx = 1000`, a case the routine never checks — the returned
distance is negative. -/
theorem c1_counterexample :
    (heightMapTracing (map 0) ⟨0, -10, 0⟩ ⟨0, -1, 0⟩).1 < 0 := by
  have h := hmt_affine (map 0) ⟨0, -10, 0⟩ ⟨0, -1, 0⟩ (-10 - H0)
    (by linarith [H0_nonneg]) map_ray_vertical
  rw [h]
  linarith [H0_nonneg]

/-- C1 (amended): when additionally the initial bracket is valid — the height
field is at or below the ray start (`0 ≤ map(ori + dir * 0)`) and above the
ray at the far end (`map(ori + dir * 1000) < 0`) — every one of the
`NUM_STEPS = 8` iterations of `heightMapTracing` keeps the invariant
`0 ≤ tm ≤ tx ≤ 1000` with `map(ori + dir * tm) ≥ 0` and
`map(ori + dir * tx) < 0`, each probe satisfies `tm ≤ tmid ≤ tx`, and the
returned distance lies in `[0, 1000]`; and, as the claim states, when
`map(ori + dir * 1000) > 0` the function returns `1000` immediately without
iterating (its `out` parameter stays unassigned). -/
theorem c1_heightMapTracing_bisection (m : Vec3R → ℝ) (ori dir : Vec3R) :
    (0 ≤ m (rayAt ori dir 0) → m (rayAt ori dir 1000) < 0 →
      (∀ n : Nat, hmtInv m ori dir (hmtIter m ori dir n (hmtInit m ori dir))) ∧
      (∀ n : Nat,
        (hmtIter m ori dir n (hmtInit m ori dir)).tm ≤
            (hmtIter m ori dir (n + 1) (hmtInit m ori dir)).tmid ∧
          (hmtIter m ori dir (n + 1) (hmtInit m ori dir)).tmid ≤
            (hmtIter m ori dir n (hmtInit m ori dir)).tx) ∧
      0 ≤ (heightMapTracing m ori dir).1 ∧ (heightMapTracing m ori dir).1 ≤ 1000) ∧
    (0 < m (rayAt ori dir 1000) → heightMapTracing m ori dir = (1000, none)) := by
  constructor
  · intro h0 h1000
    have hinit : hmtInv m ori dir (hmtInit m ori dir) :=
      ⟨le_refl 0, by norm_num [hmtInit], le_refl 1000, le_refl 0, by norm_num [hmtInit],
        rfl, rfl, h0, h1000⟩
    have hall : ∀ n, hmtInv m ori dir (hmtIter m ori dir n (hmtInit m ori dir)) :=
      fun n => hmtIter_inv m ori dir n _ hinit
    refine ⟨hall, ?_, ?_⟩
    · intro n
      rw [hmtIter_succ_outer m ori dir n (hmtInit m ori dir)]
      exact (hmtStep_inv m ori dir _ (hall n)).2
    · have hret : heightMapTracing m ori dir
          = ((hmtIter m ori dir NUM_STEPS (hmtInit m ori dir)).tmid,
             (hmtIter m ori dir NUM_STEPS (hmtInit m ori dir)).p) := by
        simp only [heightMapTracing]
        rw [if_neg (by linarith : ¬ m (rayAt ori dir 1000) > 0)]
      obtain ⟨_, _, _, htmid0, htmid1000, _⟩ := hall NUM_STEPS
      rw [hret]
      exact ⟨htmid0, htmid1000⟩
  · intro hpos
    simp only [heightMapTracing]
    rw [if_pos hpos]

/-- C1 witness: a downward ray from `(0, 2.5, 0)` (the shader camera height)
satisfies the amended hypotheses, and an upward ray from the origin triggers
the early return. -/
theorem c1_witness :
    (0 ≤ map 0 (rayAt ⟨0, 2.5, 0⟩ ⟨0, -1, 0⟩ 0) ∧
     map 0 (rayAt ⟨0, 2.5, 0⟩ ⟨0, -1, 0⟩ 1000) < 0 ∧
     0 ≤ (heightMapTracing (map 0) ⟨0, 2.5, 0⟩ ⟨0, -1, 0⟩).1 ∧
     (heightMapTracing (map 0) ⟨0, 2.5, 0⟩ ⟨0, -1, 0⟩).1 ≤ 1000) ∧
    (0 < map 0 (rayAt ⟨0, 0, 0⟩ ⟨0, 1, 0⟩ 1000) ∧
     heightMapTracing (map 0) ⟨0, 0, 0⟩ ⟨0, 1, 0⟩ = (1000, none)) := by
  have hA0 : 0 ≤ map 0 (rayAt ⟨0, 2.5, 0⟩ ⟨0, -1, 0⟩ 0) := by
    have h := map_ge 0 (rayAt ⟨0, 2.5, 0⟩ ⟨0, -1, 0⟩ 0)
    have hy : (rayAt ⟨0, 2.5, 0⟩ ⟨0, -1, 0⟩ 0).y = 2.5 := by
      show (2.5 : ℝ) + -1 * 0 = 2.5; ring
    rw [hy] at h
    linarith
  have hA1000 : map 0 (rayAt ⟨0, 2.5, 0⟩ ⟨0, -1, 0⟩ 1000) < 0 := by
    have h := map_le 0 (rayAt ⟨0, 2.5, 0⟩ ⟨0, -1, 0⟩ 1000)
    have hy : (rayAt ⟨0, 2.5, 0⟩ ⟨0, -1, 0⟩ 1000).y = -997.5 := by
      show (2.5 : ℝ) + -1 * 1000 = -997.5; ring
    rw [hy] at h
    linarith
  have hB : 0 < map 0 (rayAt ⟨0, 0, 0⟩ ⟨0, 1, 0⟩ 1000) := by
    have h := map_ge 0 (rayAt ⟨0, 0, 0⟩ ⟨0, 1, 0⟩ 1000)
    have hy : (rayAt ⟨0, 0, 0⟩ ⟨0, 1, 0⟩ 1000).y = 1000 := by
      show (0 : ℝ) + 1 * 1000 = 1000; ring
    rw [hy] at h
    linarith
  exact ⟨⟨hA0, hA1000,
      ((c1_heightMapTracing_bisection (map 0) ⟨0, 2.5, 0⟩ ⟨0, -1, 0⟩).1 hA0 hA1000).2.2⟩,
    hB, (c1_heightMapTracing_bisection (map 0) ⟨0, 0, 0⟩ ⟨0, 1, 0⟩).2 hB⟩

/-! ## Claim C9 -/

/-- C9: when the height field at the far bracket is above the ray
(`map(ori + dir * 1000) > 0`), `heightMapTracing` returns `1000` without
ever assigning its `out` parameter `p` (modelled as the `none` component of
the result); the caller in `main` nevertheless goes on to compute the surface
normal and sea color from `p`. -/
theorem c9_early_return_p_unassigned (m : Vec3R → ℝ) (ori dir : Vec3R)
    (h : 0 < m (rayAt ori dir 1000)) :
    heightMapTracing m ori dir = (1000, none) := by
  simp only [heightMapTracing]
  rw [if_pos h]

/-- C9 witness: an upward ray from `(0, 5, 0)` has the height field above it
at the far bracket, so the routine returns `(1000, none)`. -/
theorem c9_witness :
    0 < map 0 (rayAt ⟨0, 5, 0⟩ ⟨0, 1, 0⟩ 1000) ∧
      heightMapTracing (map 0) ⟨0, 5, 0⟩ ⟨0, 1, 0⟩ = (1000, none) := by
  have hB : 0 < map 0 (rayAt ⟨0, 5, 0⟩ ⟨0, 1, 0⟩ 1000) := by
    have h := map_ge 0 (rayAt ⟨0, 5, 0⟩ ⟨0, 1, 0⟩ 1000)
    have hy : (rayAt ⟨0, 5, 0⟩ ⟨0, 1, 0⟩ 1000).y = 1005 := by
      show (5 : ℝ) + 1 * 1000 = 1005; ring
    rw [hy] at h
    linarith
  exact ⟨hB, c9_early_return_p_unassigned (map 0) ⟨0, 5, 0⟩ ⟨0, 1, 0⟩ hB⟩

/-! ## Soundness of first-occurrence splitting -/

theorem splitFirstLoop_sound (pat : List Char) :
    ∀ (s acc a b : List Char),
      splitFirstLoop pat acc s = some (a, b) → acc.reverse ++ s = a ++ pat ++ b := by
  intro s
  induction s with
  | nil =>
      intro acc a b h
      simp only [splitFirstLoop] at h
      split_ifs at h with hp
      · rw [Option.some_inj, Prod.mk.injEq] at h
        obtain ⟨ha, hb⟩ := h
        subst hp
        rw [← ha, ← hb]
        simp
  | cons c rest ih =>
      intro acc a b h
      simp only [splitFirstLoop] at h
      split_ifs at h with hp
      · rw [Option.some_inj, Prod.mk.injEq] at h
        obtain ⟨ha, hb⟩ := h
        obtain ⟨t, ht⟩ := List.isPrefixOf_iff_prefix.mp hp
        rw [← ha, ← hb, ← ht, List.drop_left, List.append_assoc]
      · have hrec := ih (c :: acc) a b h
        rw [List.reverse_cons, List.append_assoc] at hrec
        simpa using hrec

theorem splitFirstAux_sound (pat s a b : List Char)
    (h : splitFirstAux pat s = some (a, b)) : s = a ++ pat ++ b := by
  have hs := splitFirstLoop_sound pat s [] a b h
  simpa using hs

/-! ## Claim C6 -/

/-- C6: `onBeforeCompile` patches the water vertex shader as a string
transformation: it adds the `uTime` uniform with value `0`; given the first
occurrence of `#include <begin_vertex>` in the header-prepended source (the
split `a ++ chunk ++ b` found by `splitFirstAux`), the resulting source is
exactly `a ++ waveDisplacementInjection ++ b` — so the Gerstner-wave header
is prepended, only that chunk is replaced, and the rest of the original text
is unchanged; and the injected replacement itself keeps the original
`#include <begin_vertex>` chunk (followed by the four Gerstner wave
displacements, the vertical scaling by `5.0`, and the two swell terms, as
spelled out in `waveDisplacementInjection`). -/
theorem c6_onBeforeCompile_patch (sh : ShaderObj) (a b : List Char)
    (h : splitFirstAux beginVertexInclude.data
        (gerstnerWaveHeader ++ sh.vertexShader).data = some (a, b)) :
    (onBeforeCompile sh).uniformsUTime = some 0 ∧
    (gerstnerWaveHeader ++ sh.vertexShader).data = a ++ beginVertexInclude.data ++ b ∧
    (onBeforeCompile sh).vertexShader.data = a ++ waveDisplacementInjection.data ++ b ∧
    (∃ u v : List Char,
      waveDisplacementInjection.data = u ++ beginVertexInclude.data ++ v) := by
  refine ⟨rfl, splitFirstAux_sound _ _ _ _ h, ?_, ?_⟩
  · show (replaceFirst (gerstnerWaveHeader ++ sh.vertexShader)
        beginVertexInclude waveDisplacementInjection).data = _
    unfold replaceFirst
    rw [h]
  · have hsome : (splitFirstAux beginVertexInclude.data
        waveDisplacementInjection.data).isSome = true := by decide
    obtain ⟨⟨u, v⟩, huv⟩ := Option.isSome_iff_exists.mp hsome
    exact ⟨u, v, splitFirstAux_sound _ _ _ _ huv⟩

/-- C6 witness: patching a small vertex shader that contains one
`#include <begin_vertex>` chunk. -/
theorem c6_witness :
    splitFirstAux beginVertexInclude.data
        (gerstnerWaveHeader ++ "void main VS\n#include <begin_vertex>\nEND").data
      = some ((gerstnerWaveHeader ++ "void main VS\n").data, "\nEND".data) ∧
    ((onBeforeCompile ⟨none, "void main VS\n#include <begin_vertex>\nEND"⟩).uniformsUTime
        = some 0 ∧
      (gerstnerWaveHeader ++ "void main VS\n#include <begin_vertex>\nEND").data
        = (gerstnerWaveHeader ++ "void main VS\n").data ++ beginVertexInclude.data ++
            "\nEND".data ∧
      (onBeforeCompile ⟨none, "void main VS\n#include <begin_vertex>\nEND"⟩).vertexShader.data
        = (gerstnerWaveHeader ++ "void main VS\n").data ++ waveDisplacementInjection.data ++
            "\nEND".data ∧
      (∃ u v : List Char,
        waveDisplacementInjection.data = u ++ beginVertexInclude.data ++ v)) := by
  have h : splitFirstAux beginVertexInclude.data
      (gerstnerWaveHeader ++ "void main VS\n#include <begin_vertex>\nEND").data
      = some ((gerstnerWaveHeader ++ "void main VS\n").data, "\nEND".data) :=
    eq_of_beq (by decide)
  exact ⟨h, c6_onBeforeCompile_patch ⟨none, "void main VS\n#include <begin_vertex>\nEND"⟩ _ _ h⟩

/-! ## Claim C5 -/

/-- C5: for every elevation `e` and azimuth `a`, `updateSunPosition e a`
computes the sun direction as the vector with spherical coordinates radius
`1`, `phi = degToRad (90 - e)`, `theta = degToRad a` — a unit vector — and
copies this same direction into both the sky material's `sunPosition`
uniform and (normalized, which leaves the unit vector unchanged) the water
material's `sunDirection` uniform. -/
theorem c5_updateSunPosition (e a : ℝ) :
    (updateSunPosition e a).sun =
      ⟨Real.sin (degToRad (90 - e)) * Real.sin (degToRad a),
       Real.cos (degToRad (90 - e)),
       Real.sin (degToRad (90 - e)) * Real.cos (degToRad a)⟩ ∧
    vLength (updateSunPosition e a).sun = 1 ∧
    (updateSunPosition e a).skySunPosition = (updateSunPosition e a).sun ∧
    (updateSunPosition e a).waterSunDirection = (updateSunPosition e a).sun := by
  have hsun : (updateSunPosition e a).sun =
      ⟨Real.sin (degToRad (90 - e)) * Real.sin (degToRad a),
       Real.cos (degToRad (90 - e)),
       Real.sin (degToRad (90 - e)) * Real.cos (degToRad a)⟩ := by
    show setFromSphericalCoords 1 (degToRad (90 - e)) (degToRad a) = _
    unfold setFromSphericalCoords
    rw [Vec3R.mk.injEq]
    refine ⟨by ring, by ring, by ring⟩
  have hlen : vLength (updateSunPosition e a).sun = 1 := by
    rw [hsun]
    unfold vLength
    have hinner :
        Real.sin (degToRad (90 - e)) * Real.sin (degToRad a) *
            (Real.sin (degToRad (90 - e)) * Real.sin (degToRad a)) +
          Real.cos (degToRad (90 - e)) * Real.cos (degToRad (90 - e)) +
          Real.sin (degToRad (90 - e)) * Real.cos (degToRad a) *
            (Real.sin (degToRad (90 - e)) * Real.cos (degToRad a)) = 1 := by
      have h1 := Real.sin_sq_add_cos_sq (degToRad (90 - e))
      have h2 := Real.sin_sq_add_cos_sq (degToRad a)
      nlinarith [h1, h2]
    rw [hinner, Real.sqrt_one]
  refine ⟨hsun, hlen, rfl, ?_⟩
  show vNormalize (updateSunPosition e a).sun = (updateSunPosition e a).sun
  unfold vNormalize
  rw [hlen]
  norm_num

/-! ## Claim C7 -/

/-- C7: `Ocean.init` creates exactly one full-screen quad — a `2 × 2` plane,
never frustum-culled, with depth test and depth write disabled — whose shader
material has the two uniforms `uTime = 0` and `uResolution = (w, h)` (the
current window inner width and height), and adds that single mesh to the
scene. -/
theorem c7_ocean_init (w h : ℝ) (scene : List OceanMesh) :
    ∃ mesh : OceanMesh,
      (Ocean.init w h scene).2 = scene ++ [mesh] ∧
      (Ocean.init w h scene).1.mesh = some mesh ∧
      (Ocean.init w h scene).1.material = some mesh.material ∧
      mesh.geometryWidth = 2 ∧ mesh.geometryHeight = 2 ∧
      mesh.frustumCulled = false ∧
      mesh.material.depthWrite = false ∧ mesh.material.depthTest = false ∧
      mesh.material.uniforms = { uTime := 0, uResolution := (w, h) } :=
  ⟨{ geometryWidth := 2, geometryHeight := 2,
     material := { uniforms := { uTime := 0, uResolution := (w, h) },
                   depthWrite := false, depthTest := false },
     frustumCulled := false },
   rfl, rfl, rfl, rfl, rfl, rfl, rfl, rfl, rfl⟩

/-! ## Claim C8 -/

/-- C8: `Ocean.update t` modifies only the `uTime` uniform — the
`uResolution` uniform, the depth flags and the mesh are unchanged — and
symmetrically `Ocean.resize` modifies only the `uResolution` uniform,
leaving `uTime`, the depth flags and the mesh unchanged. -/
theorem c8_frame_effect (o : OceanState) (t w h : ℝ) :
    (Ocean.update o t).mesh = o.mesh ∧
    ((Ocean.update o t).material.map fun m => m.uniforms.uResolution)
      = (o.material.map fun m => m.uniforms.uResolution) ∧
    ((Ocean.update o t).material.map fun m => m.depthWrite)
      = (o.material.map fun m => m.depthWrite) ∧
    ((Ocean.update o t).material.map fun m => m.depthTest)
      = (o.material.map fun m => m.depthTest) ∧
    (Ocean.resize o w h).mesh = o.mesh ∧
    ((Ocean.resize o w h).material.map fun m => m.uniforms.uTime)
      = (o.material.map fun m => m.uniforms.uTime) ∧
    ((Ocean.resize o w h).material.map fun m => m.depthWrite)
      = (o.material.map fun m => m.depthWrite) ∧
    ((Ocean.resize o w h).material.map fun m => m.depthTest)
      = (o.material.map fun m => m.depthTest) := by
  obtain ⟨mat, mesh⟩ := o
  cases mat with
  | none => simp [Ocean.update, Ocean.resize]
  | some m => simp [Ocean.update, Ocean.resize]

/-! ## Claim C10 -/

/-- C10: `Ocean.update`, `Ocean.resize` and `SceneSetup.update` never fail
when called before their material or water object exists: each is guarded by
a null check and is a no-op leaving all state unchanged in that case. -/
theorem c10_null_guards (o : OceanState) (s : SceneSetupState) (t w h : ℝ) :
    (o.material = none → Ocean.update o t = o ∧ Ocean.resize o w h = o) ∧
    (s.water = none → SceneSetup.update s = s) := by
  constructor
  · intro hn
    constructor
    · simp [Ocean.update, hn]
    · simp [Ocean.resize, hn]
  · intro hn
    simp [SceneSetup.update, hn]

/-- C10 witness: the no-op guards evaluated on states created before `init`
assigns the material and water objects. -/
theorem c10_witness :
    ((⟨none, none⟩ : OceanState).material = none ∧
      Ocean.update ⟨none, none⟩ 1 = ⟨none, none⟩ ∧
      Ocean.resize ⟨none, none⟩ 2 3 = ⟨none, none⟩) ∧
    ((⟨none⟩ : SceneSetupState).water = none ∧
      SceneSetup.update ⟨none⟩ = ⟨none⟩) := by
  have h := c10_null_guards ⟨none, none⟩ ⟨none⟩ 1 2 3
  exact ⟨⟨rfl, (h.1 rfl).1, (h.1 rfl).2⟩, rfl, h.2 rfl⟩

/-! ## Claim C2 -/

/-- Helper: the effect of one `SceneSetup.update` on a state whose water and
injected shader both exist. -/
theorem sceneSetup_update_some (w : WaterMaterialState) (sh : InjectedShaderState)
    (hsh : w.userDataShader = some sh) :
    SceneSetup.update ⟨some w⟩
      = ⟨some ⟨w.time + 1 / 60, some ⟨sh.uTime + 1 / 60⟩⟩⟩ := by
  obtain ⟨time, uds⟩ := w
  cases hsh
  rfl

/-- C2 counterexample: the claim says that after `n` calls to
`SceneSetup.update()` the time uniforms equal the wall-clock time elapsed
since the first frame; but `update` takes no time argument and adds the fixed
constant `1/60` per call, so after one frame whose wall-clock spacing is one
second the uniforms hold `1/60`, not `1`. -/
theorem c2_counterexample :
    SceneSetup.update ⟨some ⟨0, some ⟨0⟩⟩⟩ = ⟨some ⟨0 + 1 / 60, some ⟨0 + 1 / 60⟩⟩⟩ ∧
    (0 : ℝ) + 1 / 60 ≠ 1 := by
  constructor
  · rfl
  · norm_num

/-- C2 (amended): after `Ocean.update t` the `uTime` uniform equals the
elapsed clock time `t` passed to it; but the `SceneSetup` uniforms advance by
the fixed frame step `1/60` per call, independent of wall-clock time: after
`n` calls the water material's `time` uniform and the injected shader's
`uTime` uniform each exceed their initial values by exactly `n * (1/60)` —
they equal wall-clock time only under an exactly-60-fps assumption. -/
theorem c2_time_uniforms :
    (∀ (o : OceanState) (m : OceanMaterialState) (t : ℝ), o.material = some m →
      ((Ocean.update o t).material.map fun mm => mm.uniforms.uTime) = some t) ∧
    (∀ (w : WaterMaterialState) (sh : InjectedShaderState) (n : ℕ),
      w.userDataShader = some sh →
      (SceneSetup.update)^[n] ⟨some w⟩
        = ⟨some ⟨w.time + n * (1 / 60), some ⟨sh.uTime + n * (1 / 60)⟩⟩⟩) := by
  constructor
  · intro o m t hm
    simp [Ocean.update, hm]
  · intro w sh n hsh
    induction n with
    | zero =>
        obtain ⟨time, uds⟩ := w
        cases hsh
        simp
    | succ n ih =>
        rw [Function.iterate_succ_apply', ih, sceneSetup_update_some _ ⟨sh.uTime + n * (1 / 60)⟩ rfl]
        rw [SceneSetupState.mk.injEq, Option.some_inj, WaterMaterialState.mk.injEq,
          Option.some_inj, InjectedShaderState.mk.injEq]
        constructor
        · push_cast
          ring
        · push_cast
          ring

/-- C2 witness: `Ocean.update` at elapsed time `5` and two `SceneSetup`
frames starting from zeroed uniforms. -/
theorem c2_witness :
    ((⟨some ⟨⟨0, (800, 600)⟩, false, false⟩, none⟩ : OceanState).material
        = some ⟨⟨0, (800, 600)⟩, false, false⟩ ∧
      ((Ocean.update ⟨some ⟨⟨0, (800, 600)⟩, false, false⟩, none⟩ 5).material.map
          fun mm => mm.uniforms.uTime) = some 5) ∧
    ((⟨0, some ⟨0⟩⟩ : WaterMaterialState).userDataShader = some ⟨0⟩ ∧
      (SceneSetup.update)^[2] ⟨some ⟨0, some ⟨0⟩⟩⟩
        = ⟨some ⟨(0 : ℝ) + (2 : ℕ) * (1 / 60), some ⟨(0 : ℝ) + (2 : ℕ) * (1 / 60)⟩⟩⟩) :=
  ⟨⟨rfl, c2_time_uniforms.1 ⟨some ⟨⟨0, (800, 600)⟩, false, false⟩, none⟩
      ⟨⟨0, (800, 600)⟩, false, false⟩ 5 rfl⟩,
   rfl, c2_time_uniforms.2 ⟨0, some ⟨0⟩⟩ ⟨0⟩ 2 rfl⟩

/-! ## Claim C3 -/

/-- C3 counterexample: the claim says every controller variant receives the
elapsed time in its `update`; but `SceneSetup.update` takes no argument at
all — called on a frame at elapsed wall-clock time `2` it advances its time
uniform from `10` to `10 + 1/60`, a value unrelated to the elapsed time. -/
theorem c3_counterexample :
    SceneSetup.update ⟨some ⟨10, none⟩⟩ = ⟨some ⟨10 + 1 / 60, none⟩⟩ ∧
    (10 : ℝ) + 1 / 60 ≠ 2 := by
  constructor
  · rfl
  · norm_num

/-- C3 (amended): on every animation frame the `main.js` bootstrap reads the
elapsed time from the clock, passes it to `ocean.update`, and only afterwards
renders — the rendered frame snapshot shows the ocean material with `uTime`
already set to the elapsed time, and the sphere displaced by `sin t * 5`.
The `SceneSetup` controller, by contrast, does not receive the elapsed time:
its `update` takes no argument and advances the water `time` uniform by the
fixed step `1/60` per call. -/
theorem c3_animate_order (st : AppState) (m : OceanMaterialState) (t : ℝ)
    (hm : st.ocean.material = some m) :
    (animate st t).frames = st.frames ++
        [{ oceanMaterial := some { m with uniforms := { m.uniforms with uTime := t } },
           sphereY := Real.sin t * 5 }] ∧
    (animate st t).ocean = Ocean.update st.ocean t ∧
    (∀ (s : SceneSetupState) (w : WaterMaterialState), s.water = some w →
      ((SceneSetup.update s).water.map fun ww => ww.time) = some (w.time + 1 / 60)) := by
  have h1 : (Ocean.update st.ocean t).material
      = some { m with uniforms := { m.uniforms with uTime := t } } := by
    simp [Ocean.update, hm]
  refine ⟨?_, rfl, ?_⟩
  · simp only [animate]
    rw [h1]
  · intro s w hw
    cases hu : w.userDataShader with
    | none => simp [SceneSetup.update, hw, hu]
    | some sh => simp [SceneSetup.update, hw, hu]

/-- C3 witness: one frame at elapsed time `7` starting from an empty frame
list, and one `SceneSetup.update` step from `time = 1`. -/
theorem c3_witness :
    ((⟨⟨30, 1, 1, 10000⟩, 1024, 768, ⟨some ⟨⟨0, (1024, 768)⟩, false, false⟩, none⟩,
        0, []⟩ : AppState).ocean.material = some ⟨⟨0, (1024, 768)⟩, false, false⟩ ∧
      (animate ⟨⟨30, 1, 1, 10000⟩, 1024, 768,
          ⟨some ⟨⟨0, (1024, 768)⟩, false, false⟩, none⟩, 0, []⟩ 7).frames
        = [] ++ [{ oceanMaterial := some ⟨⟨7, (1024, 768)⟩, false, false⟩,
                   sphereY := Real.sin 7 * 5 }] ∧
      ((⟨some ⟨1, none⟩⟩ : SceneSetupState).water = some ⟨1, none⟩ ∧
        ((SceneSetup.update ⟨some ⟨1, none⟩⟩).water.map fun ww => ww.time)
          = some ((1 : ℝ) + 1 / 60))) :=
  ⟨rfl,
   (c3_animate_order ⟨⟨30, 1, 1, 10000⟩, 1024, 768,
      ⟨some ⟨⟨0, (1024, 768)⟩, false, false⟩, none⟩, 0, []⟩
      ⟨⟨0, (1024, 768)⟩, false, false⟩ 7 rfl).1,
   rfl,
   (c3_animate_order ⟨⟨30, 1, 1, 10000⟩, 1024, 768,
      ⟨some ⟨⟨0, (1024, 768)⟩, false, false⟩, none⟩, 0, []⟩
      ⟨⟨0, (1024, 768)⟩, false, false⟩ 7 rfl).2.2 ⟨some ⟨1, none⟩⟩ ⟨1, none⟩ rfl⟩

/-! ## Claim C4 -/

/-- C4: for every window resize event, the handler sets the camera aspect
ratio to `innerWidth / innerHeight`, resizes the renderer to the new window
dimensions, and `Ocean.resize` sets the `uResolution` uniform to exactly
`(innerWidth, innerHeight)`. -/
theorem c4_resize_handler (st : AppState) (w h : ℝ) (m : OceanMaterialState)
    (hm : st.ocean.material = some m) :
    (onWindowResize st w h).camera.aspect = w / h ∧
    (onWindowResize st w h).rendererWidth = w ∧
    (onWindowResize st w h).rendererHeight = h ∧
    ((onWindowResize st w h).ocean.material.map fun mm => mm.uniforms.uResolution)
      = some (w, h) := by
  refine ⟨rfl, rfl, rfl, ?_⟩
  show ((Ocean.resize st.ocean w h).material.map fun mm => mm.uniforms.uResolution)
      = some (w, h)
  simp [Ocean.resize, hm]

/-- C4 witness: resizing to `1920 × 1080`. -/
theorem c4_witness :
    (⟨⟨30, 1, 1, 10000⟩, 640, 480, ⟨some ⟨⟨3, (640, 480)⟩, false, false⟩, none⟩,
        0, []⟩ : AppState).ocean.material = some ⟨⟨3, (640, 480)⟩, false, false⟩ ∧
    ((onWindowResize ⟨⟨30, 1, 1, 10000⟩, 640, 480,
        ⟨some ⟨⟨3, (640, 480)⟩, false, false⟩, none⟩, 0, []⟩ 1920 1080).camera.aspect
      = 1920 / 1080 ∧
     (onWindowResize ⟨⟨30, 1, 1, 10000⟩, 640, 480,
        ⟨some ⟨⟨3, (640, 480)⟩, false, false⟩, none⟩, 0, []⟩ 1920 1080).rendererWidth
      = 1920 ∧
     (onWindowResize ⟨⟨30, 1, 1, 10000⟩, 640, 480,
        ⟨some ⟨⟨3, (640, 480)⟩, false, false⟩, none⟩, 0, []⟩ 1920 1080).rendererHeight
      = 1080 ∧
     ((onWindowResize ⟨⟨30, 1, 1, 10000⟩, 640, 480,
        ⟨some ⟨⟨3, (640, 480)⟩, false, false⟩, none⟩, 0, []⟩ 1920 1080).ocean.material.map
          fun mm => mm.uniforms.uResolution)
      = some (1920, 1080)) :=
  ⟨rfl, c4_resize_handler ⟨⟨30, 1, 1, 10000⟩, 640, 480,
      ⟨some ⟨⟨3, (640, 480)⟩, false, false⟩, none⟩, 0, []⟩ 1920 1080
      ⟨⟨3, (640, 480)⟩, false, false⟩ rfl⟩

end WaterShader
